import Mathlib

/-!
# Verification of the SmartHealthWarningSystem outbreak-prediction engine

Shallow embedding of `ml_predictor.py` (class `OutbreakPredictor`).

Modelling conventions:
* Monthly case counts (the `case_count` column produced by the SQL
  `GROUP BY month` query in `get_historical_data`) are a `List ℕ`,
  ordered chronologically ascending, passed explicitly.
* Python floats are modelled as exact rationals `ℚ`; every arithmetic
  operation performed by the code (means, products, divisions by nonzero
  values, `min`) is exact on the values involved.
* Python `int(x)` truncates toward zero; it is modelled by `pyInt`.
* The random jitter `np.random.uniform(0.8, 1.2)` is an explicit
  parameter `noise : ℚ` of the scoring function.
* The environmental row (`get_environmental_correlation`) is an
  `Option EnvData`: `none` is the absent sentinel handled at the top of
  `_calculate_environmental_risk`.
* The current calendar month (`datetime.now().month`) is an explicit
  parameter.
-/

namespace SmartHealth

/-- Python `int(x)` on an exact rational: truncation toward zero. -/
def pyInt (q : ℚ) : ℤ := if 0 ≤ q then ⌊q⌋ else -⌊-q⌋

/-- Mean of a list of natural numbers, as a rational
(pandas `Series.mean()`; `0/0 = 0` can only arise on the empty list,
which the caller guards). -/
def listMean (l : List ℕ) : ℚ := (l.sum : ℚ) / (l.length : ℚ)

/-- Maximum of a list of natural numbers (pandas `Series.max()` on the
nonnegative `case_count` column). -/
def listMax (l : List ℕ) : ℕ := l.foldl max 0

/-- Models pandas `Series.tail(n)`: the last `n` elements (all of them when the
list is shorter than `n`). -/
def lastN (n : ℕ) (l : List ℕ) : List ℕ := l.drop (l.length - n)

/-- One row of the 30-day environmental averages query
(`get_environmental_correlation`). -/
structure EnvData where
  avg_aqi : ℚ
  avg_wqi : ℚ
  avg_temp : ℚ
  avg_humidity : ℚ
deriving DecidableEq

/-- The 4-tuple returned by `predict_outbreak_risk`. -/
structure Prediction where
  risk_level : String
  probability : ℤ
  predicted_cases : ℤ
  reasoning : String
deriving DecidableEq

/-- Embeds `OutbreakPredictor._get_seasonal_factor(disease_id, month)`. -/
def _get_seasonal_factor (disease_id : ℕ) (month : ℕ) : ℚ :=
  -- Monsoon diseases (June-September): Dengue(1), Malaria(2), Typhoid(3), Cholera(13)
  if disease_id ∈ [1, 2, 3, 13] ∧ month ∈ [6, 7, 8, 9] then 1.5
  -- Winter diseases (November-February): H1N1(7), Pneumonia(10), TB(8)
  else if disease_id ∈ [7, 10, 8] ∧ month ∈ [11, 12, 1, 2] then 1.4
  -- Summer diseases (March-May): Chickenpox(12), Measles(11)
  else if disease_id ∈ [12, 11] ∧ month ∈ [3, 4, 5] then 1.3
  -- Off-season
  else if disease_id ∈ [1, 2, 3, 13] ∧ month ∈ [11, 12, 1, 2, 3] then 0.6
  else if disease_id ∈ [7, 10, 8] ∧ month ∈ [6, 7, 8] then 0.7
  else 1.0  -- Normal season

/-- Embeds `OutbreakPredictor._calculate_environmental_risk(disease_id, env_data)`.
The running `multiplier *= …` updates of the Python code are written as a
let-chain in the same order. -/
def _calculate_environmental_risk (disease_id : ℕ) (env_data : Option EnvData) : ℚ :=
  match env_data with
  | none => 1.0
  | some env =>
    let multiplier : ℚ := 1.0
    -- Respiratory diseases affected by air quality: H1N1, TB, Pneumonia, COVID
    let multiplier : ℚ :=
      if disease_id ∈ [7, 8, 10, 15] then
        if env.avg_aqi > 200 then multiplier * 1.3
        else if env.avg_aqi > 150 then multiplier * 1.15
        else if env.avg_aqi < 50 then multiplier * 0.8
        else multiplier
      else multiplier
    -- Waterborne diseases affected by water quality: Malaria, Typhoid, Hepatitis A, Diarrheal, Cholera
    let multiplier : ℚ :=
      if disease_id ∈ [2, 3, 5, 9, 13] then
        if env.avg_wqi < 50 then multiplier * 1.4
        else if env.avg_wqi < 70 then multiplier * 1.2
        else if env.avg_wqi > 85 then multiplier * 0.7
        else multiplier
      else multiplier
    -- Temperature effects on vector-borne diseases: Dengue, Malaria, Chikungunya
    -- (Python chained comparison `25 <= t <= 35` is the nested test below.)
    let multiplier : ℚ :=
      if disease_id ∈ [1, 2, 4] then
        if 25 ≤ env.avg_temp then
          if env.avg_temp ≤ 35 then multiplier * 1.2 else multiplier
        else multiplier
      else multiplier
    multiplier

/-- Embeds `OutbreakPredictor.predict_outbreak_risk(disease_id, city_id)`, with the
monthly history, current month, environmental row and drawn jitter passed
explicitly in place of the database reads and the random draw. -/
def predict_outbreak_risk (disease_id : ℕ) (historical : List ℕ) (current_month : ℕ)
    (env_data : Option EnvData) (noise : ℚ) : Prediction :=
  if historical.length = 0 then
    ⟨"Low", 0, 0, "Insufficient historical data"⟩
  else
    let avg_cases : ℚ := listMean historical
    let max_cases : ℕ := listMax historical
    let recent_trend : ℚ := listMean (lastN 3 historical)
    let seasonal_multiplier : ℚ := _get_seasonal_factor disease_id current_month
    let env_risk_multiplier : ℚ := _calculate_environmental_risk disease_id env_data
    let base_prediction : ℚ := avg_cases * 0.7 + recent_trend * 0.3
    let predicted_cases : ℤ := pyInt (base_prediction * seasonal_multiplier * env_risk_multiplier)
    let predicted_cases : ℤ := pyInt ((predicted_cases : ℚ) * noise)
    let predicted_cases : ℤ := max predicted_cases 1
    let outbreak_threshold : ℚ := avg_cases * 1.5
    let rp : String × ℚ :=
      if (predicted_cases : ℚ) ≥ outbreak_threshold * 2 then
        ("Critical", min 95 (70 + ((predicted_cases : ℚ) - outbreak_threshold * 2) / (max_cases : ℚ) * 25))
      else if (predicted_cases : ℚ) ≥ outbreak_threshold * 1.5 then
        ("High", min 80 (50 + ((predicted_cases : ℚ) - outbreak_threshold * 1.5) / (max_cases : ℚ) * 30))
      else if (predicted_cases : ℚ) ≥ outbreak_threshold then
        ("Medium", min 60 (30 + ((predicted_cases : ℚ) - outbreak_threshold) / (max_cases : ℚ) * 30))
      else
        ("Low", min 40 (10 + (predicted_cases : ℚ) / avg_cases * 20))
    let reasons : List String :=
      (if seasonal_multiplier > 1.2 then ["Peak season for this disease"]
       else if seasonal_multiplier < 0.8 then ["Off-season for this disease"] else []) ++
      (if env_risk_multiplier > 1.2 then ["Environmental conditions favor disease spread"]
       else if env_risk_multiplier < 0.8 then ["Environmental conditions unfavorable for spread"] else []) ++
      (if recent_trend > avg_cases * 1.3 then ["Recent increasing trend detected"]
       else if recent_trend < avg_cases * 0.7 then ["Recent decreasing trend detected"] else [])
    let reasoning : String :=
      if reasons.isEmpty then "Based on historical patterns" else String.intercalate "; " reasons
    ⟨rp.1, pyInt rp.2, predicted_cases, reasoning⟩

/-! ## Compositional views of the intermediate quantities of `predict_outbreak_risk`

Each definition below names one value of the let-chain of the scorer, with
exactly the expression the source computes, so that claims about "the
pre-jitter predicted count", "the threshold" and "the tier" can be stated. -/

/-- Source line `recent_trend = historical['case_count'].tail(3).mean()`. -/
def recent_trend (hist : List ℕ) : ℚ := listMean (lastN 3 hist)

/-- Source line `base_prediction = avg_cases * 0.7 + recent_trend * 0.3`. -/
def base_prediction (hist : List ℕ) : ℚ := listMean hist * 0.7 + recent_trend hist * 0.3

/-- The predicted case count before the jitter is applied:
`int(base_prediction * seasonal_multiplier * env_risk_multiplier)`. -/
def pre_jitter_cases (d : ℕ) (hist : List ℕ) (m : ℕ) (env : Option EnvData) : ℤ :=
  pyInt (base_prediction hist * _get_seasonal_factor d m * _calculate_environmental_risk d env)

/-- The predicted case count after the jitter and the floor at 1:
`max(int(predicted_cases * noise), 1)`. -/
def post_jitter_cases (d : ℕ) (hist : List ℕ) (m : ℕ) (env : Option EnvData)
    (noise : ℚ) : ℤ :=
  max (pyInt ((pre_jitter_cases d hist m env : ℚ) * noise)) 1

/-- Source line `outbreak_threshold = avg_cases * 1.5`. -/
def outbreak_threshold (hist : List ℕ) : ℚ := listMean hist * 1.5

/-- The tier produced by the threshold comparisons of the scorer, as a
function of the case count `pc` it compares and the threshold. -/
def classify_tier (pc : ℤ) (thr : ℚ) : String :=
  if (pc : ℚ) ≥ thr * 2 then "Critical"
  else if (pc : ℚ) ≥ thr * 1.5 then "High"
  else if (pc : ℚ) ≥ thr then "Medium"
  else "Low"

/-- The (rational, pre-`int()`) probability produced by the branch the case
count `pc` falls into. -/
def branch_probability (hist : List ℕ) (pc : ℤ) : ℚ :=
  if (pc : ℚ) ≥ outbreak_threshold hist * 2 then
    min 95 (70 + ((pc : ℚ) - outbreak_threshold hist * 2) / (listMax hist : ℚ) * 25)
  else if (pc : ℚ) ≥ outbreak_threshold hist * 1.5 then
    min 80 (50 + ((pc : ℚ) - outbreak_threshold hist * 1.5) / (listMax hist : ℚ) * 30)
  else if (pc : ℚ) ≥ outbreak_threshold hist then
    min 60 (30 + ((pc : ℚ) - outbreak_threshold hist) / (listMax hist : ℚ) * 30)
  else
    min 40 (10 + (pc : ℚ) / listMean hist * 20)

/-- The ordered reason list built by the scorer. -/
def reasons_list (d : ℕ) (hist : List ℕ) (m : ℕ) (env : Option EnvData) : List String :=
  (if _get_seasonal_factor d m > 1.2 then ["Peak season for this disease"]
   else if _get_seasonal_factor d m < 0.8 then ["Off-season for this disease"] else []) ++
  (if _calculate_environmental_risk d env > 1.2 then ["Environmental conditions favor disease spread"]
   else if _calculate_environmental_risk d env < 0.8 then ["Environmental conditions unfavorable for spread"] else []) ++
  (if recent_trend hist > listMean hist * 1.3 then ["Recent increasing trend detected"]
   else if recent_trend hist < listMean hist * 0.7 then ["Recent decreasing trend detected"] else [])

/-- The joined reasoning string of the scorer. -/
def reasoning_str (d : ℕ) (hist : List ℕ) (m : ℕ) (env : Option EnvData) : String :=
  if (reasons_list d hist m env).isEmpty then "Based on historical patterns"
  else String.intercalate "; " (reasons_list d hist m env)

/-! ## The claim's (spec-side) view of the classification

Claims C1 and C2 assert that the scorer classifies the *pre-jitter*,
*rounded to nearest* predicted count. The two definitions below follow the
claims' words, to be compared against the source-derived definitions. -/

/-- Spec-side: the pre-jitter predicted count as the claims state it,
`round(basePrediction * seasonalMultiplier * envMultiplier)` with rounding
to nearest. -/
def spec_round_cases (d : ℕ) (hist : List ℕ) (m : ℕ) (env : Option EnvData) : ℤ :=
  round (base_prediction hist * _get_seasonal_factor d m * _calculate_environmental_risk d env)

/-- Spec-side: the tier claim C1 asserts, computed from the pre-jitter
rounded count. -/
def spec_tier_from_pre_jitter (d : ℕ) (hist : List ℕ) (m : ℕ) (env : Option EnvData) : String :=
  classify_tier (spec_round_cases d hist m env) (outbreak_threshold hist)

/-! ## City ranking (`get_city_predictions`) -/

/-- One entry of the list `get_city_predictions` builds per disease. -/
structure CityPred where
  disease_id : ℕ
  disease_name : String
  risk_level : String
  probability : ℤ
  predicted_cases : ℤ
  reasoning : String
deriving DecidableEq

/-- The scoring loop of `get_city_predictions`: one record per disease, in
the enumeration order of the `SELECT DISTINCT disease_id` query. `rows`
carries, per disease id, the disease name and the city's 6-month monthly
history for it; `noise` is the jitter drawn for that disease's call. -/
def score_city (rows : List (ℕ × String × List ℕ)) (month : ℕ)
    (env : Option EnvData) (noise : ℕ → ℚ) : List CityPred :=
  rows.map fun r =>
    let p := predict_outbreak_risk r.1 r.2.2 month env (noise r.1)
    ⟨r.1, r.2.1, p.risk_level, p.probability, p.predicted_cases, p.reasoning⟩

/-- Source line `predictions.sort(key=lambda x: x['probability'], reverse=True)`:
Python's sort is stable, and `reverse=True` keeps equal elements in their
original order, which is exactly a stable merge sort by `≥` on the key. -/
def sort_desc (l : List CityPred) : List CityPred :=
  l.mergeSort fun a b => b.probability ≤ a.probability

/-- Embeds `OutbreakPredictor.get_city_predictions(city_id, top_n)`: score every
disease with recent cases, sort descending by probability, return the top
`top_n` (`predictions[:top_n]`). -/
def get_city_predictions (rows : List (ℕ × String × List ℕ)) (month : ℕ)
    (env : Option EnvData) (noise : ℕ → ℚ) (top_n : ℕ) : List CityPred :=
  (sort_desc (score_city rows month env noise)).take top_n

/-! ## Helper lemmas -/

theorem pyInt_of_nonneg {q : ℚ} (h : 0 ≤ q) : pyInt q = ⌊q⌋ := by
  simp [pyInt, h]

theorem pyInt_nonneg {q : ℚ} (h : 0 ≤ q) : 0 ≤ pyInt q := by
  rw [pyInt_of_nonneg h]; exact Int.floor_nonneg.mpr h

theorem pyInt_le {q : ℚ} {n : ℤ} (h0 : 0 ≤ q) (h : q ≤ (n : ℚ)) : pyInt q ≤ n := by
  rw [pyInt_of_nonneg h0]
  calc ⌊q⌋ ≤ ⌊(n : ℚ)⌋ := Int.floor_le_floor h
    _ = n := Int.floor_intCast n

theorem listMean_nonneg (l : List ℕ) : 0 ≤ listMean l := by
  unfold listMean
  positivity

theorem pair_branch_fst {c1 c2 c3 : Prop} [Decidable c1] [Decidable c2] [Decidable c3]
    (a1 a2 a3 a4 : String) (q1 q2 q3 q4 : ℚ) :
    (if c1 then (a1, q1) else if c2 then (a2, q2) else if c3 then (a3, q3) else (a4, q4)).1
      = if c1 then a1 else if c2 then a2 else if c3 then a3 else a4 := by
  split_ifs <;> rfl

theorem pair_branch_snd {c1 c2 c3 : Prop} [Decidable c1] [Decidable c2] [Decidable c3]
    (a1 a2 a3 a4 : String) (q1 q2 q3 q4 : ℚ) :
    (if c1 then (a1, q1) else if c2 then (a2, q2) else if c3 then (a3, q3) else (a4, q4)).2
      = if c1 then q1 else if c2 then q2 else if c3 then q3 else q4 := by
  split_ifs <;> rfl

/-- Structural decomposition of the scorer on non-empty history: the
returned record is the tier classification of the post-jitter count
against the threshold, the truncated branch probability at that count,
the post-jitter count, and the joined reasons. -/
theorem predict_eq (d : ℕ) (hist : List ℕ) (m : ℕ) (env : Option EnvData) (noise : ℚ)
    (h : hist ≠ []) :
    predict_outbreak_risk d hist m env noise =
      ⟨classify_tier (post_jitter_cases d hist m env noise) (outbreak_threshold hist),
       pyInt (branch_probability hist (post_jitter_cases d hist m env noise)),
       post_jitter_cases d hist m env noise,
       reasoning_str d hist m env⟩ := by
  have hl : ¬ hist.length = 0 := by simpa [List.length_eq_zero] using h
  simp only [classify_tier, branch_probability, post_jitter_cases, pre_jitter_cases,
    outbreak_threshold, base_prediction, recent_trend, reasoning_str, reasons_list,
    predict_outbreak_risk, if_neg hl]
  rw [pair_branch_fst, pair_branch_snd]

theorem one_le_post_jitter_cases (d : ℕ) (hist : List ℕ) (m : ℕ) (env : Option EnvData)
    (noise : ℚ) : 1 ≤ post_jitter_cases d hist m env noise :=
  le_max_right _ 1

/-! ## Claim theorems -/

/-- C4: for an empty 6-month historical series, `predict_outbreak_risk`
returns exactly tier Low, probability 0, predicted cases 0 and reasoning
"Insufficient historical data", for every disease id, month, environmental
row (present or absent) and jitter value. -/
theorem C4_empty_history (d : ℕ) (m : ℕ) (env : Option EnvData) (noise : ℚ) :
    predict_outbreak_risk d [] m env noise =
      ⟨"Low", 0, 0, "Insufficient historical data"⟩ := rfl

/-- C5: for every disease id, the environmental risk multiplier computed by
`_calculate_environmental_risk` on the absent sentinel is exactly 1. -/
theorem C5_absent_env_multiplier_one (disease_id : ℕ) :
    _calculate_environmental_risk disease_id none = 1 := by
  norm_num [_calculate_environmental_risk]

/-- C8: on every non-empty history (the path where step 5's jitter and
floor are applied), the returned predicted case count is at least 1, for
every disease id, month, environmental row and jitter value. -/
theorem C8_predicted_cases_min_one (d : ℕ) (hist : List ℕ) (m : ℕ) (env : Option EnvData)
    (noise : ℚ) (h : hist ≠ []) :
    1 ≤ (predict_outbreak_risk d hist m env noise).predicted_cases := by
  rw [predict_eq d hist m env noise h]
  exact one_le_post_jitter_cases d hist m env noise

/-- Witness for C8 at a concrete input. -/
theorem C8_predicted_cases_min_one_witness :
    1 ≤ (predict_outbreak_risk 6 [10, 12, 11, 9, 14, 13] 4 none 1).predicted_cases :=
  C8_predicted_cases_min_one 6 [10, 12, 11, 9, 14, 13] 4 none 1 (by decide)

/-- C1 counterexample: with history `[4]`, disease 1 (Dengue), month 7
(seasonal multiplier 1.5, environmental multiplier 1), the pre-jitter
rounded count is 6 and the claim's classification of it is "Medium", yet
with a jitter of 0.8 — inside the uniform [0.8, 1.2] band — the code
returns tier "Low": the tier is decided by the post-jitter count, not the
pre-jitter one. -/
theorem C1_cx :
    spec_tier_from_pre_jitter 1 [4] 7 none = "Medium" ∧
    (predict_outbreak_risk 1 [4] 7 none 0.8).risk_level = "Low" ∧
    (0.8 : ℚ) ≥ 0.8 ∧ (0.8 : ℚ) ≤ 1.2 := by
  refine ⟨?_, ?_, by norm_num, by norm_num⟩
  · norm_num [spec_tier_from_pre_jitter, spec_round_cases, classify_tier, outbreak_threshold,
      base_prediction, recent_trend, listMean, lastN, _get_seasonal_factor,
      _calculate_environmental_risk, round_eq]
  · norm_num [predict_outbreak_risk, listMean, listMax, lastN, pyInt,
      _get_seasonal_factor, _calculate_environmental_risk]

/-- C1 amended: for every disease/city pair with non-empty historical
data, the risk tier is determined by comparing the post-jitter, floored
predicted case count (truncated with `int`, not rounded) against the
threshold multiples 2·threshold, 1.5·threshold and threshold, where
threshold = avgCases · 1.5. -/
theorem C1_amended_thm (d : ℕ) (hist : List ℕ) (m : ℕ) (env : Option EnvData) (noise : ℚ)
    (h : hist ≠ []) :
    (predict_outbreak_risk d hist m env noise).risk_level =
      classify_tier (post_jitter_cases d hist m env noise) (outbreak_threshold hist) := by
  rw [predict_eq d hist m env noise h]

/-- Witness for the amended C1 at a concrete input. -/
theorem C1_amended_witness :
    (predict_outbreak_risk 6 [10, 12, 11, 9, 14, 13] 4 none 1).risk_level =
      classify_tier (post_jitter_cases 6 [10, 12, 11, 9, 14, 13] 4 none 1)
        (outbreak_threshold [10, 12, 11, 9, 14, 13]) :=
  C1_amended_thm 6 [10, 12, 11, 9, 14, 13] 4 none 1 (by decide)

/-- C2 counterexample: on the spec's own example history
`[10, 12, 11, 9, 14, 13]` with both multipliers 1 and jitter fixed at 1,
the code's pre-jitter count is `int(11.65) = 11`, not `round(11.65) = 12`,
and the returned probability is 29, not 30. -/
theorem C2_cx :
    pre_jitter_cases 6 [10, 12, 11, 9, 14, 13] 4 none = 11 ∧
    spec_round_cases 6 [10, 12, 11, 9, 14, 13] 4 none = 12 ∧
    (predict_outbreak_risk 6 [10, 12, 11, 9, 14, 13] 4 none 1).predicted_cases = 11 ∧
    (predict_outbreak_risk 6 [10, 12, 11, 9, 14, 13] 4 none 1).probability = 29 := by
  refine ⟨?_, ?_, ?_, ?_⟩
  · norm_num [pre_jitter_cases, base_prediction, recent_trend, listMean, lastN, pyInt,
      _get_seasonal_factor, _calculate_environmental_risk]
  · norm_num [spec_round_cases, base_prediction, recent_trend, listMean, lastN,
      _get_seasonal_factor, _calculate_environmental_risk, round_eq]
  · norm_num [predict_outbreak_risk, listMean, listMax, lastN, pyInt,
      _get_seasonal_factor, _calculate_environmental_risk]
  · norm_num [predict_outbreak_risk, listMean, listMax, lastN, pyInt,
      _get_seasonal_factor, _calculate_environmental_risk]

/-- C2 amended: the pre-jitter predicted count is the `int`-truncation
(toward zero) of basePrediction · seasonalMultiplier · envMultiplier, and
the returned count is `max(int(preJitter · jitter), 1)`; on the monthly
counts `[10, 12, 11, 9, 14, 13]` with both multipliers 1 and jitter fixed
at 1, the pre-jitter count is 11 and the returned probability is 29. -/
theorem C2_amended_thm :
    (∀ (d : ℕ) (hist : List ℕ) (m : ℕ) (env : Option EnvData) (noise : ℚ), hist ≠ [] →
        (predict_outbreak_risk d hist m env noise).predicted_cases =
          max (pyInt ((pre_jitter_cases d hist m env : ℚ) * noise)) 1) ∧
    (predict_outbreak_risk 6 [10, 12, 11, 9, 14, 13] 4 none 1).predicted_cases = 11 ∧
    (predict_outbreak_risk 6 [10, 12, 11, 9, 14, 13] 4 none 1).probability = 29 ∧
    pre_jitter_cases 6 [10, 12, 11, 9, 14, 13] 4 none = 11 := by
  refine ⟨?_, ?_, ?_, ?_⟩
  · intro d hist m env noise h
    rw [predict_eq d hist m env noise h]
    rfl
  · norm_num [predict_outbreak_risk, listMean, listMax, lastN, pyInt,
      _get_seasonal_factor, _calculate_environmental_risk]
  · norm_num [predict_outbreak_risk, listMean, listMax, lastN, pyInt,
      _get_seasonal_factor, _calculate_environmental_risk]
  · norm_num [pre_jitter_cases, base_prediction, recent_trend, listMean, lastN, pyInt,
      _get_seasonal_factor, _calculate_environmental_risk]

/-- Witness for the amended C2 at a concrete input. -/
theorem C2_amended_witness :
    (predict_outbreak_risk 6 [10, 12, 11, 9, 14, 13] 4 none 1).predicted_cases =
      max (pyInt ((pre_jitter_cases 6 [10, 12, 11, 9, 14, 13] 4 none : ℚ) * 1)) 1 :=
  C2_amended_thm.1 6 [10, 12, 11, 9, 14, 13] 4 none 1 (by decide)

/-- C3 counterexample: on the non-empty all-zero history `[0, 0]` (average
0), the code returns tier "Critical", not "Low": the two-times-threshold
branch fires because the floored predicted count is 1 ≥ 2·threshold = 0,
so the claimed Low tier and the claimed guarded Low-branch division are
never reached. -/
theorem C3_cx :
    listMean [0, 0] = 0 ∧
    (predict_outbreak_risk 1 [0, 0] 4 none 1).risk_level = "Critical" := by
  constructor
  · norm_num [listMean]
  · norm_num [predict_outbreak_risk, listMean, listMax, lastN, pyInt,
      _get_seasonal_factor, _calculate_environmental_risk]

/-- C3 amended: for every disease/city pair with non-empty historical data
averaging to zero, no division guard exists and the Low branch is never
reached: the predicted count is at least 1 while the threshold is 0, so
the Critical branch fires and the tier is "Critical". -/
theorem C3_amended_thm (d : ℕ) (hist : List ℕ) (m : ℕ) (env : Option EnvData) (noise : ℚ)
    (h : hist ≠ []) (h0 : listMean hist = 0) :
    (predict_outbreak_risk d hist m env noise).risk_level = "Critical" := by
  have h1 : (1 : ℤ) ≤ post_jitter_cases d hist m env noise :=
    one_le_post_jitter_cases d hist m env noise
  rw [predict_eq d hist m env noise h]
  show classify_tier (post_jitter_cases d hist m env noise) (outbreak_threshold hist) = "Critical"
  unfold classify_tier outbreak_threshold
  rw [h0]
  rw [if_pos]
  have h2 : (0 : ℚ) ≤ ((post_jitter_cases d hist m env noise : ℤ) : ℚ) := by
    exact_mod_cast le_trans zero_le_one h1
  calc (0 : ℚ) * 1.5 * 2 = 0 := by norm_num
    _ ≤ _ := h2

/-- Witness for the amended C3 at a concrete input. -/
theorem C3_amended_witness :
    (predict_outbreak_risk 1 [0, 0] 4 none 1).risk_level = "Critical" :=
  C3_amended_thm 1 [0, 0] 4 none 1 (by decide) (by norm_num [listMean])

/-- C6 counterexample: disease 1 is a monsoon-category disease and month 4
lies outside the peak band {6, 7, 8, 9}, yet the seasonal factor is 1, not
strictly less than 1: off-season dampening does not cover the full
complement of the peak months. -/
theorem C6_cx :
    (1 : ℕ) ∈ [1, 2, 3, 13] ∧ (4 : ℕ) ∉ [6, 7, 8, 9] ∧
    ¬ _get_seasonal_factor 1 4 < 1 := by
  refine ⟨by decide, by decide, ?_⟩
  norm_num [_get_seasonal_factor]

/-- C6 amended: for monsoon-category diseases (1, 2, 3, 13) the seasonal
factor is strictly below 1 exactly in months {11, 12, 1, 2, 3}, and for
winter-category diseases (7, 10, 8) exactly in months {6, 7, 8}; all other
off-peak months yield the neutral factor 1. -/
theorem C6_amended_thm :
    (∀ d ∈ ([1, 2, 3, 13] : List ℕ), ∀ m : ℕ, 1 ≤ m → m ≤ 12 →
        (_get_seasonal_factor d m < 1 ↔ m ∈ ([11, 12, 1, 2, 3] : List ℕ))) ∧
    (∀ d ∈ ([7, 10, 8] : List ℕ), ∀ m : ℕ, 1 ≤ m → m ≤ 12 →
        (_get_seasonal_factor d m < 1 ↔ m ∈ ([6, 7, 8] : List ℕ))) := by
  constructor <;>
  · intro d hd m h1 h12
    fin_cases hd <;> interval_cases m <;>
      norm_num [_get_seasonal_factor]

/-- Witness for the amended C6 at a concrete input. -/
theorem C6_amended_witness :
    _get_seasonal_factor 1 11 < 1 ↔ (11 : ℕ) ∈ ([11, 12, 1, 2, 3] : List ℕ) :=
  C6_amended_thm.1 1 (by decide) 11 (by decide) (by decide)

/-- Bounds on the rational branch probability before `int()` truncation:
every branch's value lies in [0, 95] once the compared case count is at
least 1. -/
theorem branch_probability_bounds (hist : List ℕ) (pc : ℤ) (hpc : 1 ≤ pc) :
    0 ≤ branch_probability hist pc ∧ branch_probability hist pc ≤ 95 := by
  have havg : 0 ≤ listMean hist := listMean_nonneg hist
  have hmx : (0 : ℚ) ≤ (listMax hist : ℚ) := by positivity
  have hpcq : (0 : ℚ) ≤ (pc : ℚ) := by exact_mod_cast le_trans zero_le_one hpc
  unfold branch_probability
  split_ifs with h1 h2 h3
  · refine ⟨le_min (by norm_num) ?_, (min_le_left _ _).trans (by norm_num)⟩
    have : (0 : ℚ) ≤ ((pc : ℚ) - outbreak_threshold hist * 2) / (listMax hist : ℚ) * 25 :=
      mul_nonneg (div_nonneg (by linarith) hmx) (by norm_num)
    linarith
  · refine ⟨le_min (by norm_num) ?_, (min_le_left _ _).trans (by norm_num)⟩
    have : (0 : ℚ) ≤ ((pc : ℚ) - outbreak_threshold hist * 1.5) / (listMax hist : ℚ) * 30 :=
      mul_nonneg (div_nonneg (by linarith) hmx) (by norm_num)
    linarith
  · refine ⟨le_min (by norm_num) ?_, (min_le_left _ _).trans (by norm_num)⟩
    have : (0 : ℚ) ≤ ((pc : ℚ) - outbreak_threshold hist) / (listMax hist : ℚ) * 30 :=
      mul_nonneg (div_nonneg (by linarith) hmx) (by norm_num)
    linarith
  · refine ⟨le_min (by norm_num) ?_, (min_le_left _ _).trans (by norm_num)⟩
    have : (0 : ℚ) ≤ (pc : ℚ) / listMean hist * 20 :=
      mul_nonneg (div_nonneg hpcq havg) (by norm_num)
    linarith

/-- C7: for every input (empty or non-empty history, any month,
environmental row and jitter), the returned probability is an integer in
[0, 100]; it is an integer by construction of the `probability` field. -/
theorem C7_probability_bounds (d : ℕ) (hist : List ℕ) (m : ℕ) (env : Option EnvData)
    (noise : ℚ) :
    0 ≤ (predict_outbreak_risk d hist m env noise).probability ∧
    (predict_outbreak_risk d hist m env noise).probability ≤ 100 := by
  by_cases h : hist = []
  · subst h
    constructor <;> norm_num [predict_outbreak_risk]
  · rw [predict_eq d hist m env noise h]
    have hb := branch_probability_bounds hist (post_jitter_cases d hist m env noise)
      (one_le_post_jitter_cases d hist m env noise)
    refine ⟨pyInt_nonneg hb.1, ?_⟩
    exact pyInt_le hb.1 (hb.2.trans (by norm_num))

set_option maxHeartbeats 1000000 in
/-- C10: for every disease id and every environmental row (present or
absent), the environmental multiplier lies in [0.7, 1.68]; 1.68 is
attained only by disease id 2 (the sole id in both the waterborne and
vector-borne sets), and 0.7 is reached by a waterborne disease whose
water-quality index exceeds 85. -/
theorem C10_env_multiplier_range :
    (∀ (d : ℕ) (env : Option EnvData),
        0.7 ≤ _calculate_environmental_risk d env ∧
        _calculate_environmental_risk d env ≤ 1.68) ∧
    (∀ (d : ℕ) (env : Option EnvData),
        _calculate_environmental_risk d env = 1.68 → d = 2) ∧
    _calculate_environmental_risk 3 (some ⟨100, 90, 20, 50⟩) = 0.7 ∧
    _calculate_environmental_risk 2 (some ⟨100, 40, 30, 50⟩) = 1.68 := by
  have key : ∀ (d : ℕ) (e : EnvData),
      (0.7 ≤ _calculate_environmental_risk d (some e) ∧
       _calculate_environmental_risk d (some e) ≤ 1.68) ∧
      (_calculate_environmental_risk d (some e) = 1.68 → d = 2) := by
    intro d e
    by_cases hr : d ∈ [7, 8, 10, 15] <;>
    by_cases hw : d ∈ [2, 3, 5, 9, 13] <;>
    by_cases hv : d ∈ [1, 2, 4]
    · exfalso; simp at hr hw; omega
    · exfalso; simp at hr hw; omega
    · exfalso; simp at hr hv; omega
    · simp only [_calculate_environmental_risk, if_pos hr, if_neg hw, if_neg hv]
      split_ifs <;> norm_num
    · have hd2 : d = 2 := by simp at hw hv; omega
      subst hd2
      simp only [_calculate_environmental_risk, if_pos hw, if_pos hv]
      rw [if_neg hr]
      split_ifs <;> norm_num
    · simp only [_calculate_environmental_risk, if_pos hw, if_neg hr, if_neg hv]
      split_ifs <;> norm_num
    · simp only [_calculate_environmental_risk, if_pos hv, if_neg hr, if_neg hw]
      split_ifs <;> norm_num
    · simp only [_calculate_environmental_risk, if_neg hr, if_neg hw, if_neg hv]
      norm_num
  refine ⟨?_, ?_, ?_, ?_⟩
  · rintro d (_ | e)
    · norm_num [_calculate_environmental_risk]
    · exact (key d e).1
  · rintro d (_ | e) hval
    · exfalso; norm_num [_calculate_environmental_risk] at hval
    · exact (key d e).2 hval
  · norm_num [_calculate_environmental_risk]
  · norm_num [_calculate_environmental_risk]

/-- Witness for C10: the uniqueness implication applied at disease 2 and
an environmental row attaining the maximum. -/
theorem C10_env_multiplier_range_witness : (2 : ℕ) = 2 :=
  C10_env_multiplier_range.2.1 2 (some ⟨100, 40, 30, 50⟩)
    (by norm_num [_calculate_environmental_risk])


/-- C9: for every city input, month, environmental row, jitter assignment
and requested count, the sequence returned by `get_city_predictions` is
sorted in descending order of probability and has length at most the
requested count; moreover the sort is stable: any two scored records with
equal probability that appear in enumeration order in the scored list
still appear in that order (as a sublist) in the sorted list the output
is a prefix of. -/
theorem C9_sorted_bounded_stable (rows : List (ℕ × String × List ℕ)) (month : ℕ)
    (env : Option EnvData) (noise : ℕ → ℚ) (top_n : ℕ) :
    (get_city_predictions rows month env noise top_n).Pairwise
        (fun a b => b.probability ≤ a.probability) ∧
    (get_city_predictions rows month env noise top_n).length ≤ top_n ∧
    (∀ a b : CityPred, a.probability = b.probability →
        List.Sublist [a, b] (score_city rows month env noise) →
        List.Sublist [a, b] (sort_desc (score_city rows month env noise))) ∧
    get_city_predictions rows month env noise top_n =
      (sort_desc (score_city rows month env noise)).take top_n := by
  have htrans : ∀ a b c : CityPred,
      (decide (b.probability ≤ a.probability)) = true →
      (decide (c.probability ≤ b.probability)) = true →
      (decide (c.probability ≤ a.probability)) = true := by
    intro a b c hab hbc
    simp only [decide_eq_true_eq] at hab hbc ⊢
    exact le_trans hbc hab
  have htotal : ∀ a b : CityPred,
      ((decide (b.probability ≤ a.probability)) ||
        (decide (a.probability ≤ b.probability))) = true := by
    intro a b
    simp only [Bool.or_eq_true, decide_eq_true_eq]
    exact le_total _ _
  have hs : (sort_desc (score_city rows month env noise)).Pairwise
      (fun a b : CityPred => b.probability ≤ a.probability) := by
    refine List.Pairwise.imp ?_
      (List.sorted_mergeSort htrans htotal (score_city rows month env noise))
    intro a b hab
    exact of_decide_eq_true hab
  refine ⟨?_, ?_, ?_, rfl⟩
  · exact List.Pairwise.sublist (List.take_sublist _ _) hs
  · calc (get_city_predictions rows month env noise top_n).length
        = min top_n (sort_desc (score_city rows month env noise)).length := by
          simp [get_city_predictions, List.length_take]
      _ ≤ top_n := min_le_left _ _
  · intro a b hab hsub
    exact List.pair_sublist_mergeSort htrans htotal
      (decide_eq_true (le_of_eq hab.symm)) hsub



/-- Witness for C9: two diseases with identical histories tie at
probability 30 and stay in enumeration order after sorting. -/
theorem C9_witness :
    List.Sublist
      [({ disease_id := 6, disease_name := "A", risk_level := "Low", probability := 30,
          predicted_cases := 4, reasoning := "Based on historical patterns" } : CityPred),
       { disease_id := 16, disease_name := "B", risk_level := "Low", probability := 30,
          predicted_cases := 4, reasoning := "Based on historical patterns" }]
      (sort_desc (score_city [(6, "A", [4]), (16, "B", [4])] 4 none (fun _ => 1))) := by
  have h6 : predict_outbreak_risk 6 [4] 4 none 1 =
      ⟨"Low", 30, 4, "Based on historical patterns"⟩ := by
    norm_num [predict_outbreak_risk, listMean, listMax, lastN, pyInt,
      _get_seasonal_factor, _calculate_environmental_risk]
  have h16 : predict_outbreak_risk 16 [4] 4 none 1 =
      ⟨"Low", 30, 4, "Based on historical patterns"⟩ := by
    norm_num [predict_outbreak_risk, listMean, listMax, lastN, pyInt,
      _get_seasonal_factor, _calculate_environmental_risk]
  have hscore : score_city [(6, "A", [4]), (16, "B", [4])] 4 none (fun _ => 1) =
      [({ disease_id := 6, disease_name := "A", risk_level := "Low", probability := 30,
          predicted_cases := 4, reasoning := "Based on historical patterns" } : CityPred),
       { disease_id := 16, disease_name := "B", risk_level := "Low", probability := 30,
          predicted_cases := 4, reasoning := "Based on historical patterns" }] := by
    simp [score_city, h6, h16]
  exact (C9_sorted_bounded_stable [(6, "A", [4]), (16, "B", [4])] 4 none (fun _ => 1) 5).2.2.1
    _ _ rfl (hscore ▸ List.Sublist.refl _)

end SmartHealth
